import Mathlib

/-
Verification of the docutray-python SDK core: retry policy, HTTP transport,
error taxonomy, async-job poller, and pagination cursor.

Modelling conventions for the shallow embedding:
* Python floats are modelled as rationals (ℚ); all float arithmetic the
  code performs on delays and timeouts (add, multiply, min, max, compare)
  is exact on the values involved, so ℚ is a faithful carrier.
* `random.uniform(a, b)` is modelled by passing the drawn value explicitly
  as an argument, together with the hypothesis `a ≤ draw ≤ b` in theorems.
* Wall-clock time (`time.monotonic`) is modelled by an idealised clock that
  advances exactly by the slept amount: after n sleeps of `poll_interval`
  seconds the elapsed time is `n * poll_interval`.
* Raising an exception is modelled by returning it in an `Except` / sum
  result; the network and the re-fetch capability are modelled as explicit
  functions supplied by the environment.
* Python `frozenset` values are modelled as lists; the code only ever tests
  membership, for which the two agree.
-/

namespace Docutray

/-! ## Constants (src/docutray/_constants.py) -/

def DEFAULT_MAX_RETRIES : Int := 2

def INITIAL_RETRY_DELAY : ℚ := 1/2

def MAX_RETRY_DELAY : ℚ := 8

def EXPONENTIAL_BASE : ℚ := 2

def JITTER_MIN : ℚ := 1/4

def JITTER_MAX : ℚ := 1/2

def RETRYABLE_STATUS_CODES : List Int := [429, 500, 502, 503, 504]

/-- `RetryConfig` from `_constants.py`: a frozen dataclass.  The generated
constructor assigns the fields verbatim; there is no `__post_init__` and
hence no validation of any field. -/
structure RetryConfig where
  max_retries : Int
  initial_delay : ℚ
  max_delay : ℚ
  exponential_base : ℚ
  jitter_min : ℚ
  jitter_max : ℚ
  retryable_status_codes : List Int
deriving DecidableEq

/-- `RetryConfig.with_max_retries`: copy the config with one field overridden. -/
def RetryConfig.with_max_retries (c : RetryConfig) (m : Int) : RetryConfig :=
  ⟨m, c.initial_delay, c.max_delay, c.exponential_base, c.jitter_min,
   c.jitter_max, c.retryable_status_codes⟩

/-- `DEFAULT_RETRY_CONFIG = RetryConfig()` with all dataclass defaults. -/
def DEFAULT_RETRY_CONFIG : RetryConfig :=
  ⟨DEFAULT_MAX_RETRIES, INITIAL_RETRY_DELAY, MAX_RETRY_DELAY, EXPONENTIAL_BASE,
   JITTER_MIN, JITTER_MAX, RETRYABLE_STATUS_CODES⟩

/-- The `max_retries` handling of `BaseClient.__init__` / `AsyncBaseClient.__init__`
(`_base_client.py`): default the argument, reject negative values with
`ValueError("max_retries must be >= 0")`, otherwise derive the retry config. -/
def clientRetrySetup (max_retries : Option Int) : Except String RetryConfig :=
  let m := max_retries.getD DEFAULT_MAX_RETRIES
  if m < 0 then .error "max_retries must be >= 0"
  else .ok (DEFAULT_RETRY_CONFIG.with_max_retries m)

/-! ## Exceptions (src/docutray/_exceptions.py) -/

/-- The data carried by an `APIConnectionError` (and its subclass
`APITimeoutError`, distinguished by `is_timeout`). -/
structure APIConnectionErrorData where
  message : String
  should_retry : Bool
  is_timeout : Bool
deriving DecidableEq

/-- `APIConnectionError(message)` with its default `should_retry=True`
made explicit at call sites. -/
def mkAPIConnectionError (message : String) (sr : Bool) : APIConnectionErrorData :=
  ⟨message, sr, false⟩

/-- `APITimeoutError(message)`: an `APIConnectionError` constructed with
`should_retry=True` (hard-coded in `APITimeoutError.__init__`). -/
def mkAPITimeoutError (message : String) : APIConnectionErrorData :=
  ⟨message, true, true⟩

/-- The concrete subclass of `APIError` raised by `raise_for_status`.
Each Python class is one constructor; `apiError` is the base class itself
(the catch-all used for unmapped non-5xx codes). -/
inductive ErrorKind where
  | badRequest
  | authentication
  | permissionDenied
  | notFound
  | conflict
  | unprocessableEntity
  | rateLimit
  | internalServer
  | apiError
deriving DecidableEq

/-! ## A small JSON model (for parsed response bodies) -/

inductive Json where
  | null
  | bool (b : Bool)
  | num (q : ℚ)
  | str (s : String)
  | arr (elems : List Json)
  | obj (fields : List (String × Json))

/-- `dict.get(key)` on a JSON object; `none` for missing keys or non-objects. -/
def Json.getKey : Json → String → Option Json
  | .obj fields, k => (fields.find? (fun p => p.1 == k)).map (fun p => p.2)
  | _, _ => none

/-- Python truthiness of a parsed JSON value. -/
def Json.truthy : Json → Bool
  | .null => false
  | .bool b => b
  | .num q => q != 0
  | .str s => s != ""
  | .arr elems => !elems.isEmpty
  | .obj fields => !fields.isEmpty

/-- Python `repr` of a parsed JSON value (string rendering of numbers is
abstracted to the rational printer; no claim depends on it). -/
def Json.pyRepr : Json → String
  | .null => "None"
  | .bool b => if b then "True" else "False"
  | .num q => toString q
  | .str s => "\x27" ++ s ++ "\x27"
  | .arr elems =>
      "[" ++ String.intercalate ", " (elems.attach.map (fun x => x.1.pyRepr)) ++ "]"
  | .obj fields =>
      "\x7b" ++
        String.intercalate ", "
          (fields.attach.map (fun p => "\x27" ++ p.1.1 ++ "\x27: " ++ p.1.2.pyRepr)) ++
      "\x7d"
decreasing_by
  · have h1 := List.sizeOf_lt_of_mem x.2
    simp only [Json.arr.sizeOf_spec]
    omega
  · have h1 := List.sizeOf_lt_of_mem p.2
    have h2 : sizeOf p.1.2 < sizeOf p.1 := by
      obtain ⟨a, b⟩ := p.1
      simp
    simp only [Json.obj.sizeOf_spec]
    omega

/-- Python `str` of a parsed JSON value. -/
def Json.pyStr : Json → String
  | .str s => s
  | j => j.pyRepr

/-- Python `a or b` over optional JSON values: keep `a` when present and
truthy, otherwise fall through to `b`. -/
def pyOrJson (a b : Option Json) : Option Json :=
  match a with
  | some v => if v.truthy then some v else b
  | none => b

/-! ## HTTP responses and `raise_for_status` -/

/-- An `httpx.Response` as the SDK observes it: status code, headers,
raw text, and the result of `response.json()` (`none` models a body that
fails to parse as JSON). -/
structure Response where
  status_code : Int
  headers : List (String × String)
  text : String
  body : Option Json

/-- `httpx` `Response.is_success`: status in the 2xx range. -/
def Response.is_success (r : Response) : Bool :=
  decide (200 ≤ r.status_code) && decide (r.status_code < 300)

/-- `httpx.Headers.get`: case-insensitive header lookup. -/
def headerGet (headers : List (String × String)) (name : String) : Option String :=
  (headers.find? (fun p => p.1.toLower == name.toLower)).map (fun p => p.2)

/-- Python `a or b` over optional strings (an empty string is falsy). -/
def pyOrStr (a b : Option String) : Option String :=
  match a with
  | some v => if v == "" then b else some v
  | none => b

/-- `STATUS_CODE_TO_EXCEPTION` from `_exceptions.py`. -/
def STATUS_CODE_TO_EXCEPTION : List (Int × ErrorKind) :=
  [(400, .badRequest), (401, .authentication), (403, .permissionDenied),
   (404, .notFound), (409, .conflict), (422, .unprocessableEntity),
   (429, .rateLimit)]

/-- Lines 313-315 of `_exceptions.py`: look the status up in the mapping,
falling back to `InternalServerError` for 5xx and the `APIError` base class
otherwise. -/
def pickExcClass (status_code : Int) : ErrorKind :=
  match (STATUS_CODE_TO_EXCEPTION.find? (fun p => p.1 == status_code)).map
      (fun p => p.2) with
  | some k => k
  | none => if status_code ≥ 500 then .internalServer else .apiError

/-- The exception instance built by `raise_for_status`. -/
structure APIErrorData where
  kind : ErrorKind
  message : String
  status_code : Int
  request_id : Option String
  body : Option Json
  headers : List (String × String)

/-- `raise_for_status(response)`: `none` when the response is a success
(no exception raised), otherwise the raised `APIError` (sub)class instance. -/
def raise_for_status (response : Response) : Option APIErrorData :=
  if response.is_success then none
  else
    let status_code := response.status_code
    let request_id := pyOrStr (headerGet response.headers "X-Request-ID")
      (headerGet response.headers "x-request-id")
    let headers := response.headers
    let fallback : String :=
      if response.text == "" then "HTTP " ++ toString status_code
      else response.text
    let message : String :=
      match response.body with
      | some b =>
          let fromError : Option Json :=
            match b.getKey "error" with
            | some (.obj e) => (Json.obj e).getKey "message"
            | _ => none
          match pyOrJson (pyOrJson fromError (b.getKey "message"))
              (b.getKey "detail") with
          | some v => if v.truthy then v.pyStr else fallback
          | none => fallback
      | none => fallback
    some ⟨pickExcClass status_code, message, status_code, request_id,
          response.body, headers⟩

/-! ## Retry policy (src/docutray/_http.py) -/

/-- The exception argument of `should_retry`: either an
`APIConnectionError` instance (the `isinstance` branch) or some other
exception. -/
inductive PyException where
  | connError (e : APIConnectionErrorData)
  | otherError (message : String)

/-- `should_retry(attempt, config, exception, status_code)` from `_http.py`. -/
def should_retry (attempt : Nat) (config : RetryConfig)
    (exception : Option PyException) (status_code : Option Int) : Bool :=
  if (attempt : Int) ≥ config.max_retries then false
  else
    match exception with
    | some (.connError e) => e.should_retry
    | _ =>
      match status_code with
      | some c => config.retryable_status_codes.contains c
      | none => false

/-- `calculate_delay(attempt, config, retry_after)` from `_http.py`.
`jitter_draw` is the value produced by
`random.uniform(config.jitter_min, config.jitter_max)`. -/
def calculate_delay (attempt : Nat) (config : RetryConfig) (jitter_draw : ℚ)
    (retry_after : Option ℚ) : ℚ :=
  let delay := min (config.initial_delay * config.exponential_base ^ attempt)
    config.max_delay
  let delay := delay + delay * jitter_draw
  match retry_after with
  | some ra => max delay ra
  | none => delay

/-- Python `float(s)` restricted to plain decimal literals (sign, digits,
optional fractional part); other accepted spellings (exponents, `inf`)
are abstracted to parse failure.  No claim depends on the parser. -/
def parseDecimal (s : String) : Option ℚ :=
  let core (t : String) : Option ℚ :=
    match t.split (fun c => c == '.') with
    | [w] => (w.toNat?).map (fun n => (n : ℚ))
    | [w, f] =>
        match w.toNat?, f.toNat? with
        | some wn, some fn =>
            some ((wn : ℚ) + (fn : ℚ) / ((10 : ℚ) ^ f.length))
        | _, _ => none
    | _ => none
  if s.startsWith "-" then (core (s.drop 1)).map (fun q => -q)
  else core s

/-- `_get_retry_after(response)`: read the `Retry-After` header and parse
it as a float, `none` on absence or parse failure. -/
def get_retry_after (response : Response) : Option ℚ :=
  match pyOrStr (headerGet response.headers "retry-after")
      (headerGet response.headers "Retry-After") with
  | none => none
  | some v => parseDecimal v

/-! ## The transport request loop (`SyncHTTPClient.request`) -/

/-- What one call to the underlying `httpx` client produces: a response
(of any status), an `httpx.TimeoutException`, or another
`httpx.RequestError`. -/
inductive AttemptResult where
  | response (r : Response)
  | timeoutExc (message : String)
  | requestExc (message : String)

/-- A terminal failure of `request`: either an `APIError` raised by
`raise_for_status` or an `APIConnectionError` / `APITimeoutError`. -/
inductive SdkError where
  | api (e : APIErrorData)
  | conn (e : APIConnectionErrorData)

/-- The observable outcome of one `request` call: the returned response or
raised error, the number of attempts issued, and the sequence of back-off
sleeps performed. -/
structure RequestTrace where
  result : Except SdkError Response
  attempts : Nat
  sleeps : List ℚ

/-- The body of the `for attempt in range(max_retries + 1)` loop of
`SyncHTTPClient.request` (the async variant is line-for-line identical up
to `await`).  `net n` is the outcome of the underlying call on attempt
`n`; `draw n` is the jitter drawn for the back-off after attempt `n`;
`fuel` is the number of loop iterations remaining; `last_exception`
mirrors the Python local of the same role.  When the loop exits without
returning, the trailing lines raise `last_exception` or a generic
connection error. -/
def requestAux (net : Nat → AttemptResult) (config : RetryConfig)
    (draw : Nat → ℚ) :
    Nat → Nat → Option APIConnectionErrorData → RequestTrace
  | _, 0, last_exception =>
      { result := .error (.conn (match last_exception with
          | some e => e
          | none => mkAPIConnectionError "Request failed after all retries" true)),
        attempts := 0, sleeps := [] }
  | attempt, fuel + 1, last_exception =>
      match net attempt with
      | .response r =>
          if !r.is_success then
            if should_retry attempt config none (some r.status_code) then
              let retry_after := get_retry_after r
              let delay := calculate_delay attempt config (draw attempt) retry_after
              let rest := requestAux net config draw (attempt + 1) fuel last_exception
              { result := rest.result, attempts := rest.attempts + 1,
                sleeps := delay :: rest.sleeps }
            else
              match raise_for_status r with
              | some e => { result := .error (.api e), attempts := 1, sleeps := [] }
              | none => { result := .ok r, attempts := 1, sleeps := [] }
          else
            { result := .ok r, attempts := 1, sleeps := [] }
      | .timeoutExc msg =>
          let e := mkAPITimeoutError msg
          if should_retry attempt config (some (.connError e)) none then
            let delay := calculate_delay attempt config (draw attempt) none
            let rest := requestAux net config draw (attempt + 1) fuel (some e)
            { result := rest.result, attempts := rest.attempts + 1,
              sleeps := delay :: rest.sleeps }
          else
            { result := .error (.conn e), attempts := 1, sleeps := [] }
      | .requestExc msg =>
          let e := mkAPIConnectionError msg true
          if should_retry attempt config (some (.connError e)) none then
            let delay := calculate_delay attempt config (draw attempt) none
            let rest := requestAux net config draw (attempt + 1) fuel (some e)
            { result := rest.result, attempts := rest.attempts + 1,
              sleeps := delay :: rest.sleeps }
          else
            { result := .error (.conn e), attempts := 1, sleeps := [] }

/-- `SyncHTTPClient.request`: run the loop for `max_retries + 1` attempts
(`range` of a non-positive bound is empty). -/
def request (net : Nat → AttemptResult) (config : RetryConfig)
    (draw : Nat → ℚ) : RequestTrace :=
  requestAux net config draw 0 (config.max_retries + 1).toNat none

/-! ## Async-job poller (src/docutray/_polling.py)

The poller is generic over `ConversionStatus`, `IdentificationStatus` and
`StepExecutionStatus`; all three carry a string id, a string `status`
field, an optional `_resource` reference, and the same
`is_complete = status in ("SUCCESS", "ERROR")` method.  `JobStatus`
abstracts the three classes; `kind` records which class the value is (the
`isinstance` dispatch), `job_id` the respective id field
(`conversion_id` / `identification_id` / `execution_id`), and
`hasResource` whether `_resource` is set. -/

inductive StatusKind where
  | conversion
  | identification
  | stepExecution
deriving DecidableEq

structure JobStatus where
  kind : StatusKind
  job_id : String
  status : String
  hasResource : Bool
deriving DecidableEq

/-- `is_complete()`: terminal iff SUCCESS or ERROR. -/
def JobStatus.is_complete (s : JobStatus) : Bool :=
  s.status == "SUCCESS" || s.status == "ERROR"

/-- The `APITimeoutError` message built at the timeout check, per the
`isinstance` dispatch.  (Python renders the float `timeout`; the rational
printer stands in for that rendering.) -/
def timeout_message (s : JobStatus) (timeout : ℚ) : String :=
  match s.kind with
  | .conversion =>
      "Conversion " ++ s.job_id ++ " did not complete within " ++
        toString timeout ++ " seconds"
  | .identification =>
      "Identification " ++ s.job_id ++ " did not complete within " ++
        toString timeout ++ " seconds"
  | .stepExecution =>
      "Step execution " ++ s.job_id ++ " did not complete within " ++
        toString timeout ++ " seconds"

/-- The exceptions `wait_for_completion` can raise. -/
inductive PollError where
  | valueErr (message : String)
  | apiTimeout (message : String)
deriving DecidableEq

/-- The observable outcome of one `wait_for_completion` call: the returned
status or raised error, the statuses passed to `on_status` (in call
order), the statuses obtained from the re-fetch capability (in call
order), and the number of `sleep(poll_interval)` calls. -/
structure WaitTrace where
  result : Except PollError JobStatus
  callbackCalls : List JobStatus
  fetched : List JobStatus
  sleepCount : Nat

/-- The `while True` loop of `wait_for_completion`.  `fetch n id` is what
the resource's `get_status(id)` returns on its `n`-th call; `polls` counts
the sleeps already performed, so under the idealised clock the elapsed
time at the check is `polls * poll_interval`.  `fuel` bounds the number of
iterations; `none` models a run that exceeds it (the Python loop can run
unboundedly when `poll_interval = 0`). -/
def waitAux (fetch : Nat → String → JobStatus) (poll_interval timeout : ℚ)
    (hasCallback : Bool) :
    JobStatus → Nat → Nat → Option WaitTrace
  | _, _, 0 => none
  | current, polls, fuel + 1 =>
      if current.is_complete then
        some ⟨.ok current, [], [], 0⟩
      else if (polls : ℚ) * poll_interval ≥ timeout then
        some ⟨.error (.apiTimeout (timeout_message current timeout)), [], [], 0⟩
      else
        let next := fetch polls current.job_id
        match waitAux fetch poll_interval timeout hasCallback next (polls + 1) fuel with
        | none => none
        | some t =>
            some ⟨t.result,
                  (if hasCallback then [next] else []) ++ t.callbackCalls,
                  next :: t.fetched,
                  t.sleepCount + 1⟩

/-- The message of the `ValueError` raised when `_resource` is absent. -/
def resourceErrorMessage : String :=
  "Status object doesn\x27t have a resource reference. Use get_status() to create a pollable status."

/-- `wait_for_completion(status, poll_interval, timeout, on_status)`:
check the `_resource` reference first (before any terminal check, sleep,
fetch or callback), then run the polling loop. -/
def wait_for_completion (fetch : Nat → String → JobStatus)
    (poll_interval timeout : ℚ) (hasCallback : Bool) (status : JobStatus)
    (fuel : Nat) : Option WaitTrace :=
  if status.hasResource then
    waitAux fetch poll_interval timeout hasCallback status 0 fuel
  else
    some ⟨.error (.valueErr resourceErrorMessage), [], [], 0⟩

/-- `wait_for_completion_async`: its control flow is line-for-line the
body of `wait_for_completion` with `await` on the sleep, the fetch and
(when the callback returns an awaitable) the callback; under this
embedding the two coincide. -/
def wait_for_completion_async (fetch : Nat → String → JobStatus)
    (poll_interval timeout : ℚ) (hasCallback : Bool) (status : JobStatus)
    (fuel : Nat) : Option WaitTrace :=
  wait_for_completion fetch poll_interval timeout hasCallback status fuel

/-! ## Pagination (src/docutray/_pagination.py) -/

/-- `Pagination` from `types/shared.py`. -/
structure Pagination where
  total : Int
  page : Int
  limit : Int
deriving DecidableEq

/-- A `Page` holds its data and pagination metadata.  The stored
`_fetch_page` closure is modelled as an explicit `fetch_page` argument to
the methods below (all pages produced by one listing share the closure the
resource wrapper installed). -/
structure Page (α : Type) where
  data : List α
  pagination : Pagination
deriving DecidableEq

/-- `Page.has_next_page()`: `page * limit < total`. -/
def Page.has_next_page {α : Type} (p : Page α) : Bool :=
  decide (p.pagination.page * p.pagination.limit < p.pagination.total)

/-- `Page.next_page()`: raise `StopIteration("No more pages")` when
exhausted, otherwise fetch `page + 1`. -/
def Page.next_page {α : Type} (p : Page α) (fetch_page : Int → Page α) :
    Except String (Page α) :=
  if !p.has_next_page then .error "No more pages"
  else .ok (fetch_page (p.pagination.page + 1))

/-- `Page.iter_pages()`: yield the current page, then keep following
`next_page()` while `has_next_page()`.  The generator can run forever on
adversarial metadata, so the embedding carries `fuel`; `none` models a run
that exceeds it. -/
def Page.iter_pages {α : Type} (fetch_page : Int → Page α) :
    Page α → Nat → Option (List (Page α))
  | _, 0 => none
  | p, fuel + 1 =>
      if p.has_next_page then
        match p.next_page fetch_page with
        | .ok q => (Page.iter_pages fetch_page q fuel).map (fun rest => p :: rest)
        | .error _ => some [p]
      else
        some [p]

/-- `Page.auto_paging_iter()`: flatten the data lists of `iter_pages()`. -/
def Page.auto_paging_iter {α : Type} (fetch_page : Int → Page α)
    (p : Page α) (fuel : Nat) : Option (List α) :=
  (p.iter_pages fetch_page fuel).map (fun pages => (pages.map Page.data).flatten)

/-! ## Auxiliary definitions for the statements -/

/-- The status→kind table exactly as the specification words it:
400→BadRequest, 401→Authentication, 403→PermissionDenied, 404→NotFound,
409→Conflict, 422→UnprocessableEntity, 429→RateLimit, unmapped ≥500→
InternalServer, any other unmapped code→the generic `APIError` class.
This is the refinement reference the source mapping is compared against. -/
def statusKindSpec (code : Int) : ErrorKind :=
  if code = 400 then .badRequest
  else if code = 401 then .authentication
  else if code = 403 then .permissionDenied
  else if code = 404 then .notFound
  else if code = 409 then .conflict
  else if code = 422 then .unprocessableEntity
  else if code = 429 then .rateLimit
  else if code ≥ 500 then .internalServer
  else .apiError

/-- Attempt `j` of the request loop ends in `continue` (rather than in a
return or a raise): a non-success response whose status is retryable, or a
retryable transport exception, each within the attempt budget. -/
def attemptContinues (net : Nat → AttemptResult) (config : RetryConfig)
    (j : Nat) : Bool :=
  match net j with
  | .response r =>
      !r.is_success && should_retry j config none (some r.status_code)
  | .timeoutExc msg =>
      should_retry j config (some (.connError (mkAPITimeoutError msg))) none
  | .requestExc msg =>
      should_retry j config (some (.connError (mkAPIConnectionError msg true))) none

/-! Concrete fixtures used by witnesses. -/

def resp500 : Response := ⟨500, [], "", none⟩

def resp200 : Response := ⟨200, [], "", none⟩

def resp400 : Response := ⟨400, [], "", none⟩

def resp418 : Response := ⟨418, [], "", none⟩

/-- An endpoint answering 500, 500, then 200. -/
def net552 : Nat → AttemptResult :=
  fun n => if n < 2 then .response resp500 else .response resp200

/-- The default config with jitter disabled. -/
def jitterFreeConfig : RetryConfig :=
  ⟨2, 1/2, 8, 2, 0, 0, RETRYABLE_STATUS_CODES⟩

def convEnqueued : JobStatus := ⟨.conversion, "c1", "ENQUEUED", true⟩

def convProcessing : JobStatus := ⟨.conversion, "c1", "PROCESSING", true⟩

def convSuccess : JobStatus := ⟨.conversion, "c1", "SUCCESS", true⟩

/-- A re-fetch capability serving PROCESSING then SUCCESS. -/
def progressFetch : Nat → String → JobStatus :=
  fun n _ => if n = 0 then convProcessing else convSuccess

/-- A hand-constructed, already-terminal status with no resource reference. -/
def handmadeTerminal : JobStatus := ⟨.conversion, "job-1", "SUCCESS", false⟩

def boundaryPage20 : Page Nat := ⟨[], ⟨20, 2, 10⟩⟩

def boundaryPage21 : Page Nat := ⟨[], ⟨21, 2, 10⟩⟩

def boundaryFetch : Int → Page Nat := fun _ => boundaryPage20

def flatPage3 : Page Nat := ⟨[5], ⟨5, 3, 2⟩⟩

def flatPage2 : Page Nat := ⟨[3, 4], ⟨5, 2, 2⟩⟩

def flatPage1 : Page Nat := ⟨[1, 2], ⟨5, 1, 2⟩⟩

/-- The listing capability behind the three-page scenario. -/
def flatFetch : Int → Page Nat :=
  fun n => if n = 2 then flatPage2 else if n = 3 then flatPage3 else flatPage1

/-- An empty listing: `total = 0` and no data. -/
def totallyEmptyPage : Page Nat := ⟨[], ⟨0, 1, 10⟩⟩

/-- A metadata-inconsistent page: empty `data` yet `page * limit < total`. -/
def emptyDataPage : Page Nat := ⟨[], ⟨2, 1, 1⟩⟩

def emptyDataNext : Page Nat := ⟨[9], ⟨2, 2, 1⟩⟩

def emptyDataFetch : Int → Page Nat := fun _ => emptyDataNext

/-! ## Theorems -/

/-- C3: `should_retry` returns false whenever
`attempt_index ≥ config.max_retries` regardless of failure kind; below
that bound it returns a connection error's own `should_retry` flag (so a
flagged-fatal connection error is not retried, and timeout errors, which
carry `should_retry = true`, are retried), for an HTTP status outcome it
returns true iff the code is in `config.retryable_status_codes`, and with
neither an exception nor a status it returns false. -/
theorem C3_should_retry_cases :
    (∀ (attempt : Nat) (config : RetryConfig) (exc : Option PyException)
        (sc : Option Int),
        (attempt : Int) ≥ config.max_retries →
        should_retry attempt config exc sc = false)
  ∧ (∀ (attempt : Nat) (config : RetryConfig) (e : APIConnectionErrorData)
        (sc : Option Int),
        (attempt : Int) < config.max_retries →
        should_retry attempt config (some (.connError e)) sc = e.should_retry)
  ∧ (∀ (attempt : Nat) (config : RetryConfig) (msg : String) (sc : Option Int),
        (attempt : Int) < config.max_retries →
        should_retry attempt config
          (some (.connError (mkAPITimeoutError msg))) sc = true)
  ∧ (∀ (attempt : Nat) (config : RetryConfig) (code : Int),
        (attempt : Int) < config.max_retries →
        should_retry attempt config none (some code) =
          config.retryable_status_codes.contains code)
  ∧ (∀ (attempt : Nat) (config : RetryConfig),
        should_retry attempt config none none = false) := by
  refine ⟨?_, ?_, ?_, ?_, ?_⟩
  · intro a c exc sc h
    simp only [should_retry, if_pos h]
  · intro a c e sc h
    simp only [should_retry, if_neg (not_le.mpr h)]
  · intro a c msg sc h
    simp only [should_retry, if_neg (not_le.mpr h), mkAPITimeoutError]
  · intro a c code h
    simp only [should_retry, if_neg (not_le.mpr h)]
  · intro a c
    simp only [should_retry]
    split
    · rfl
    · rfl

/-- C3 witness: at `max_retries = 2` the budget boundary holds, a
retryable status below the boundary is retried, and a connection error
flagged `should_retry=False` short-circuits the remaining budget. -/
theorem C3_witness :
    should_retry 2 DEFAULT_RETRY_CONFIG none (some 500) = false
  ∧ should_retry 1 DEFAULT_RETRY_CONFIG none (some 500) = true
  ∧ should_retry 0 DEFAULT_RETRY_CONFIG
      (some (.connError (mkAPIConnectionError "reset" false))) none = false := by
  refine ⟨?_, ?_, ?_⟩
  · exact C3_should_retry_cases.1 2 DEFAULT_RETRY_CONFIG none (some 500) (by decide)
  · rw [C3_should_retry_cases.2.2.2.1 1 DEFAULT_RETRY_CONFIG 500 (by decide)]
    decide
  · rw [C3_should_retry_cases.2.1 0 DEFAULT_RETRY_CONFIG
      (mkAPIConnectionError "reset" false) none (by decide)]
    rfl

/-- C4: `calculate_delay` computes
`base = min(initial_delay * exponential_base ** attempt, max_delay)` plus
`base` times the uniform jitter draw; with jitter disabled,
`initial_delay = 0.5`, `exponential_base = 2.0`, attempts 0..3 give
exactly 0.5, 1.0, 2.0, 4.0, and exactly `max_delay` once the cap binds; a
server hint is combined by `max`, so it is used exactly when it exceeds
the local delay and never shortens it. -/
theorem C4_calculate_delay_spec :
    (∀ (a : Nat) (c : RetryConfig) (u : ℚ),
        calculate_delay a c u none =
          min (c.initial_delay * c.exponential_base ^ a) c.max_delay
          + min (c.initial_delay * c.exponential_base ^ a) c.max_delay * u)
  ∧ (∀ (a : Nat) (c : RetryConfig) (u : ℚ) (hint : ℚ),
        calculate_delay a c u (some hint) =
          max (calculate_delay a c u none) hint)
  ∧ (∀ (c : RetryConfig) (u : ℚ),
        c.jitter_min ≤ u → u ≤ c.jitter_max →
        c.jitter_min = 0 → c.jitter_max = 0 →
        c.initial_delay = 1/2 → c.exponential_base = 2 → 4 ≤ c.max_delay →
        calculate_delay 0 c u none = 1/2 ∧ calculate_delay 1 c u none = 1 ∧
        calculate_delay 2 c u none = 2 ∧ calculate_delay 3 c u none = 4)
  ∧ (∀ (a : Nat) (c : RetryConfig) (u : ℚ),
        c.jitter_min ≤ u → u ≤ c.jitter_max →
        c.jitter_min = 0 → c.jitter_max = 0 →
        c.max_delay ≤ c.initial_delay * c.exponential_base ^ a →
        calculate_delay a c u none = c.max_delay)
  ∧ (∀ (a : Nat) (c : RetryConfig) (u : ℚ) (hint : ℚ),
        calculate_delay a c u none ≤ hint →
        calculate_delay a c u (some hint) = hint)
  ∧ (∀ (a : Nat) (c : RetryConfig) (u : ℚ) (hint : ℚ),
        hint ≤ calculate_delay a c u none →
        calculate_delay a c u (some hint) = calculate_delay a c u none) := by
  refine ⟨fun a c u => rfl, fun a c u hint => rfl, ?_, ?_, ?_, ?_⟩
  · intro c u hlo hhi hjm hjx hid heb hmax
    have hu : u = 0 := le_antisymm (hjx ▸ hhi) (hjm ▸ hlo)
    subst hu
    refine ⟨?_, ?_, ?_, ?_⟩ <;>
      · show min (c.initial_delay * c.exponential_base ^ _) c.max_delay
            + min (c.initial_delay * c.exponential_base ^ _) c.max_delay * 0 = _
        rw [hid, heb, mul_zero, add_zero, min_eq_left (by norm_num; linarith)]
        norm_num
  · intro a c u hlo hhi hjm hjx hmax
    have hu : u = 0 := le_antisymm (hjx ▸ hhi) (hjm ▸ hlo)
    subst hu
    show min (c.initial_delay * c.exponential_base ^ a) c.max_delay
        + min (c.initial_delay * c.exponential_base ^ a) c.max_delay * 0 = _
    rw [mul_zero, add_zero, min_eq_right hmax]
  · intro a c u hint h
    show max (calculate_delay a c u none) hint = hint
    exact max_eq_right h
  · intro a c u hint h
    show max (calculate_delay a c u none) hint = calculate_delay a c u none
    exact max_eq_left h

/-- C4 witness: the jitter-free schedule 0.5, 1.0, 2.0, 4.0 and the
dominance of a larger server hint, at the concrete config. -/
theorem C4_witness :
    calculate_delay 0 jitterFreeConfig 0 none = 1/2
  ∧ calculate_delay 1 jitterFreeConfig 0 none = 1
  ∧ calculate_delay 2 jitterFreeConfig 0 none = 2
  ∧ calculate_delay 3 jitterFreeConfig 0 none = 4
  ∧ calculate_delay 0 jitterFreeConfig 0 (some 10) = 10 := by
  obtain ⟨h0, h1, h2, h3⟩ :=
    C4_calculate_delay_spec.2.2.1 jitterFreeConfig 0
      (le_refl 0) (le_refl 0) rfl rfl rfl rfl (by norm_num [jitterFreeConfig])
  refine ⟨h0, h1, h2, h3, ?_⟩
  rw [C4_calculate_delay_spec.2.2.2.2.1 0 jitterFreeConfig 0 10 (by rw [h0]; norm_num)]

/-- C9 counterexample: the `RetryConfig` dataclass performs no validation,
so a config with `max_retries = -1` is constructed successfully (here via
the source's own `with_max_retries` copy method), violating the claimed
construction-time invariant. -/
theorem C9_counterexample :
    (DEFAULT_RETRY_CONFIG.with_max_retries (-1)).max_retries = -1
  ∧ (DEFAULT_RETRY_CONFIG.with_max_retries (-1)).max_retries < 0 :=
  ⟨rfl, by decide⟩

/-- C9 (amended): the non-negativity check lives in the client
constructor, not in `RetryConfig`: `BaseClient.__init__` raises
`ValueError("max_retries must be >= 0")` for a negative `max_retries`, so
every client-derived `RetryConfig` satisfies `max_retries ≥ 0`. -/
theorem C9_client_construction_validates :
    (∀ m : Int, m < 0 →
        clientRetrySetup (some m) = .error "max_retries must be >= 0")
  ∧ (∀ (m : Option Int) (c : RetryConfig),
        clientRetrySetup m = .ok c → 0 ≤ c.max_retries) := by
  constructor
  · intro m h
    simp only [clientRetrySetup, Option.getD_some, if_pos h]
  · intro m c h
    simp only [clientRetrySetup] at h
    split at h
    · exact absurd h (by simp)
    · injection h with h
      subst h
      simp only [RetryConfig.with_max_retries]
      omega

/-- C9 witness: the client constructor rejects `max_retries = -1` and a
successful construction yields a non-negative budget. -/
theorem C9_witness :
    clientRetrySetup (some (-1)) = .error "max_retries must be >= 0"
  ∧ 0 ≤ (DEFAULT_RETRY_CONFIG.with_max_retries 5).max_retries := by
  constructor
  · exact C9_client_construction_validates.1 (-1) (by decide)
  · exact C9_client_construction_validates.2 (some 5) _ rfl

/-- C7: `has_next_page()` is true iff `page * limit < total` (so
`total=20, page=2, limit=10` reports false while `total=21` reports
true), and `next_page()` fails with the "No more pages" exhausted
condition exactly when `has_next_page()` is false, otherwise returning
the stored fetch capability applied to `page + 1`. -/
theorem C7_has_next_and_next_page :
    (∀ (α : Type) (p : Page α),
        p.has_next_page = true ↔
          p.pagination.page * p.pagination.limit < p.pagination.total)
  ∧ boundaryPage20.has_next_page = false
  ∧ boundaryPage21.has_next_page = true
  ∧ (∀ (α : Type) (p : Page α) (fetch_page : Int → Page α),
        (p.next_page fetch_page = .error "No more pages" ↔
          p.has_next_page = false)
      ∧ (p.has_next_page = true →
          p.next_page fetch_page = .ok (fetch_page (p.pagination.page + 1)))) := by
  refine ⟨?_, by decide, by decide, ?_⟩
  · intro α p
    simp [Page.has_next_page]
  · intro α p fetch_page
    constructor
    · constructor
      · intro h
        by_cases hn : p.has_next_page
        · simp only [Page.next_page, hn, Bool.not_true, Bool.false_eq_true,
            if_false] at h
          exact absurd h (by simp)
        · simp only [Bool.not_eq_true] at hn
          exact hn
      · intro h
        simp [Page.next_page, h]
    · intro h
      simp [Page.next_page, h]

/-- C7 witness: the boundary pages, with exhaustion and fetch handoff. -/
theorem C7_witness :
    boundaryPage20.next_page boundaryFetch = .error "No more pages"
  ∧ boundaryPage21.next_page boundaryFetch = .ok (boundaryFetch 3) := by
  constructor
  · exact (C7_has_next_and_next_page.2.2.2 Nat boundaryPage20 boundaryFetch).1.mpr
      (by decide)
  · exact (C7_has_next_and_next_page.2.2.2 Nat boundaryPage21 boundaryFetch).2
      (by decide)

/-- C8 (amended): three pages of sizes 2, 2, 1 with `total = 5` flatten
via `auto_paging_iter` to exactly the 5 items in server order while
`iter_pages` yields exactly the 3 pages, and a page with `total = 0` AND
empty data (with `page ≥ 1`, `limit ≥ 1`) yields exactly one empty page
with an empty item stream.  (`has_next_page` consults only the pagination
metadata, never `data`, so an empty-data page whose metadata still says
`page * limit < total` fetches further pages — see the counterexample.) -/
theorem C8_flattening :
    (∀ fuel : Nat,
        flatPage1.iter_pages flatFetch (fuel + 3) =
          some [flatPage1, flatPage2, flatPage3]
      ∧ flatPage1.auto_paging_iter flatFetch (fuel + 3) = some [1, 2, 3, 4, 5])
  ∧ (∀ (α : Type) (fetch_page : Int → Page α) (p : Page α) (fuel : Nat),
        p.pagination.total = 0 → 1 ≤ p.pagination.page →
        1 ≤ p.pagination.limit → p.data = [] →
        p.iter_pages fetch_page (fuel + 1) = some [p]
      ∧ p.auto_paging_iter fetch_page (fuel + 1) = some []) := by
  constructor
  · intro fuel
    constructor
    · simp [Page.iter_pages, Page.next_page, Page.has_next_page,
        Page.auto_paging_iter, flatPage1, flatPage2, flatPage3, flatFetch]
    · simp [Page.iter_pages, Page.next_page, Page.has_next_page,
        Page.auto_paging_iter, flatPage1, flatPage2, flatPage3, flatFetch]
  · intro α fetch_page p fuel htotal hpage hlimit hdata
    have hpos : 0 < p.pagination.page * p.pagination.limit :=
      mul_pos (by omega) (by omega)
    have hn : p.has_next_page = false := by
      simp only [Page.has_next_page, decide_eq_false_iff_not]
      omega
    constructor
    · simp [Page.iter_pages, hn]
    · simp [Page.auto_paging_iter, Page.iter_pages, hn, hdata]

/-- C8 witness: the concrete three-page flattening and the genuinely
empty page. -/
theorem C8_witness :
    flatPage1.iter_pages flatFetch 3 = some [flatPage1, flatPage2, flatPage3]
  ∧ flatPage1.auto_paging_iter flatFetch 3 = some [1, 2, 3, 4, 5]
  ∧ totallyEmptyPage.iter_pages flatFetch 1 = some [totallyEmptyPage]
  ∧ totallyEmptyPage.auto_paging_iter flatFetch 1 = some [] := by
  obtain ⟨h1, h2⟩ := C8_flattening.1 0
  obtain ⟨h3, h4⟩ := C8_flattening.2 Nat flatFetch totallyEmptyPage 0 rfl
    (by decide) (by decide) rfl
  exact ⟨h1, h2, h3, h4⟩

/-- C8 counterexample: a page with empty `data` but metadata
`total = 2, page = 1, limit = 1` does NOT stop the iteration — `pages()`
yields two pages, not "exactly one (empty) page", and the item stream is
not empty, refuting the claim's "or empty data" half. -/
theorem C8_counterexample :
    emptyDataPage.data = []
  ∧ emptyDataPage.iter_pages emptyDataFetch 5 =
      some [emptyDataPage, emptyDataNext]
  ∧ emptyDataPage.auto_paging_iter emptyDataFetch 5 = some [9] := by
  refine ⟨rfl, rfl, rfl⟩

/-- C10: a status object without a `_resource` re-fetch capability makes
both `wait_for_completion` and `wait_for_completion_async` raise
`ValueError` before the terminal check, with no sleep, no fetch and no
callback — even an already-terminal hand-constructed status is rejected. -/
theorem C10_missing_resource :
    ∀ (fetch : Nat → String → JobStatus) (poll_interval timeout : ℚ)
      (hasCallback : Bool) (s : JobStatus) (fuel : Nat),
      s.hasResource = false →
      wait_for_completion fetch poll_interval timeout hasCallback s fuel =
        some ⟨.error (.valueErr resourceErrorMessage), [], [], 0⟩
    ∧ wait_for_completion_async fetch poll_interval timeout hasCallback s fuel =
        some ⟨.error (.valueErr resourceErrorMessage), [], [], 0⟩ := by
  intro fetch i T cb s fuel h
  constructor
  · simp [wait_for_completion, h]
  · simp [wait_for_completion_async, wait_for_completion, h]

/-- C10 witness: a hand-constructed status that is already SUCCESS is
still rejected with the ValueError, not returned. -/
theorem C10_witness :
    handmadeTerminal.is_complete = true
  ∧ wait_for_completion (fun _ _ => handmadeTerminal) 1 10 true
      handmadeTerminal 5 =
      some ⟨.error (.valueErr resourceErrorMessage), [], [], 0⟩ := by
  exact ⟨rfl,
    (C10_missing_resource (fun _ _ => handmadeTerminal) 1 10 true
      handmadeTerminal 5 rfl).1⟩

/-- Helper: with a callback installed, every completed polling run calls
the callback exactly once per poll, with exactly the fetched statuses in
order. -/
theorem waitAux_callbacks (fetch : Nat → String → JobStatus)
    (poll_interval timeout : ℚ) :
    ∀ (fuel : Nat) (current : JobStatus) (polls : Nat) (t : WaitTrace),
      waitAux fetch poll_interval timeout true current polls fuel = some t →
      t.callbackCalls = t.fetched := by
  intro fuel
  induction fuel with
  | zero => intro c p t h; simp [waitAux] at h
  | succ n ih =>
      intro c p t h
      simp only [waitAux] at h
      split at h
      · injection h with h; subst h; rfl
      · split at h
        · injection h with h; subst h; rfl
        · cases hrec : waitAux fetch poll_interval timeout true
            (fetch p c.job_id) (p + 1) n with
          | none => rw [hrec] at h; exact absurd h (by simp)
          | some t2 =>
              rw [hrec] at h
              injection h with h
              subst h
              simpa using ih _ _ _ hrec

/-- Helper: with no callback installed, the callback list is empty. -/
theorem waitAux_no_callbacks (fetch : Nat → String → JobStatus)
    (poll_interval timeout : ℚ) :
    ∀ (fuel : Nat) (current : JobStatus) (polls : Nat) (t : WaitTrace),
      waitAux fetch poll_interval timeout false current polls fuel = some t →
      t.callbackCalls = [] := by
  intro fuel
  induction fuel with
  | zero => intro c p t h; simp [waitAux] at h
  | succ n ih =>
      intro c p t h
      simp only [waitAux] at h
      split at h
      · injection h with h; subst h; rfl
      · split at h
        · injection h with h; subst h; rfl
        · cases hrec : waitAux fetch poll_interval timeout false
            (fetch p c.job_id) (p + 1) n with
          | none => rw [hrec] at h; exact absurd h (by simp)
          | some t2 =>
              rw [hrec] at h
              injection h with h
              subst h
              simpa using ih _ _ _ hrec

/-- C5: an already-terminal initial status is returned immediately with
no sleep, no fetch and no callback; the `on_update` callback is never
invoked for the initial value and fires exactly once per poll, in order,
with each newly fetched status; for the re-fetched sequence
ENQUEUED→PROCESSING→SUCCESS, `wait` returns the SUCCESS value and the
callback fires exactly twice, with PROCESSING then SUCCESS. -/
theorem C5_poller_callbacks :
    (∀ (fetch : Nat → String → JobStatus) (i T : ℚ) (cb : Bool)
        (s : JobStatus) (fuel : Nat),
        s.hasResource = true → s.is_complete = true →
        wait_for_completion fetch i T cb s (fuel + 1) =
          some ⟨.ok s, [], [], 0⟩)
  ∧ (∀ (fetch : Nat → String → JobStatus) (i T : ℚ) (s : JobStatus)
        (fuel : Nat) (t : WaitTrace),
        wait_for_completion fetch i T true s fuel = some t →
        t.callbackCalls = t.fetched)
  ∧ (∀ (fetch : Nat → String → JobStatus) (i T : ℚ) (s : JobStatus)
        (fuel : Nat) (t : WaitTrace),
        wait_for_completion fetch i T false s fuel = some t →
        t.callbackCalls = [])
  ∧ (∀ i T : ℚ, 0 < T → i < T →
        wait_for_completion progressFetch i T true convEnqueued 3 =
          some ⟨.ok convSuccess, [convProcessing, convSuccess],
                [convProcessing, convSuccess], 2⟩) := by
  refine ⟨?_, ?_, ?_, ?_⟩
  · intro fetch i T cb s fuel hres hterm
    simp [wait_for_completion, hres, waitAux, hterm]
  · intro fetch i T s fuel t h
    rw [wait_for_completion] at h
    split at h
    · exact waitAux_callbacks fetch i T fuel s 0 t h
    · injection h with h; subst h; rfl
  · intro fetch i T s fuel t h
    rw [wait_for_completion] at h
    split at h
    · exact waitAux_no_callbacks fetch i T fuel s 0 t h
    · injection h with h; subst h; rfl
  · intro i T hT hiT
    have h0 : ¬ T ≤ 0 := not_le.mpr hT
    have h1 : ¬ T ≤ i := not_le.mpr hiT
    simp [wait_for_completion, waitAux, progressFetch, convEnqueued,
      convProcessing, convSuccess, JobStatus.is_complete, h0, h1]

/-- C5 witness: the ENQUEUED→PROCESSING→SUCCESS run at `i=1, T=10`, and
the immediate return on a terminal initial status. -/
theorem C5_witness :
    wait_for_completion progressFetch 1 10 true convEnqueued 3 =
      some ⟨.ok convSuccess, [convProcessing, convSuccess],
            [convProcessing, convSuccess], 2⟩
  ∧ wait_for_completion progressFetch 1 10 true convSuccess 1 =
      some ⟨.ok convSuccess, [], [], 0⟩ := by
  constructor
  · exact C5_poller_callbacks.2.2.2 1 10 (by norm_num) (by norm_num)
  · exact C5_poller_callbacks.1 progressFetch 1 10 true convSuccess 0 rfl rfl

/-- Helper: whatever the status kind, the timeout message embeds the
job's id and the rendered timeout value. -/
theorem timeout_message_contains (s : JobStatus) (T : ℚ) :
    (∃ x y, timeout_message s T = x ++ s.job_id ++ y)
  ∧ (∃ x y, timeout_message s T = x ++ toString T ++ y) := by
  cases hk : s.kind
  · exact ⟨⟨"Conversion ", " did not complete within " ++ toString T ++ " seconds",
      by simp [timeout_message, hk, String.append_assoc]⟩,
      ⟨"Conversion " ++ s.job_id ++ " did not complete within ", " seconds",
      by simp [timeout_message, hk, String.append_assoc]⟩⟩
  · exact ⟨⟨"Identification ", " did not complete within " ++ toString T ++ " seconds",
      by simp [timeout_message, hk, String.append_assoc]⟩,
      ⟨"Identification " ++ s.job_id ++ " did not complete within ", " seconds",
      by simp [timeout_message, hk, String.append_assoc]⟩⟩
  · exact ⟨⟨"Step execution ", " did not complete within " ++ toString T ++ " seconds",
      by simp [timeout_message, hk, String.append_assoc]⟩,
      ⟨"Step execution " ++ s.job_id ++ " did not complete within ", " seconds",
      by simp [timeout_message, hk, String.append_assoc]⟩⟩

/-- Helper: one non-terminal, not-yet-timed-out iteration of the polling
loop sleeps, fetches, optionally calls back, and recurses. -/
theorem waitAux_step (fetch : Nat → String → JobStatus) (i T : ℚ)
    (cb : Bool) (current : JobStatus) (polls fuel : Nat)
    (h1 : current.is_complete = false) (h2 : ¬ T ≤ (polls : ℚ) * i) :
    waitAux fetch i T cb current polls (fuel + 1) =
      match waitAux fetch i T cb (fetch polls current.job_id) (polls + 1) fuel with
      | none => none
      | some t =>
          some ⟨t.result,
                (if cb then [fetch polls current.job_id] else [])
                  ++ t.callbackCalls,
                fetch polls current.job_id :: t.fetched,
                t.sleepCount + 1⟩ := by
  rw [waitAux, if_neg (by simp [h1]), if_neg (by simpa using h2)]

/-- Helper: when every re-fetch stays non-terminal and the elapsed time
first reaches the budget after `polls + d` sleeps, the loop raises the
timeout error after exactly `d` further sleeps, against a status whose id
the fetches preserved. -/
theorem waitAux_times_out (fetch : Nat → String → JobStatus) (i T : ℚ)
    (cb : Bool) (jid : String)
    (hfetch : ∀ n id, (fetch n id).is_complete = false)
    (hid : ∀ n id, (fetch n id).job_id = jid) :
    ∀ (d polls : Nat) (current : JobStatus),
      current.is_complete = false → current.job_id = jid →
      T ≤ ((polls + d : Nat) : ℚ) * i →
      (∀ j : Nat, j < polls + d → ¬ T ≤ (j : ℚ) * i) →
      ∃ (fin : JobStatus) (t : WaitTrace),
        fin.job_id = jid ∧
        waitAux fetch i T cb current polls (d + 1) = some t ∧
        t.result = .error (.apiTimeout (timeout_message fin T)) ∧
        t.sleepCount = d := by
  intro d
  induction d with
  | zero =>
      intro polls current hcur hcid hT _
      refine ⟨current, ⟨.error (.apiTimeout (timeout_message current T)),
        [], [], 0⟩, hcid, ?_, rfl, rfl⟩
      rw [waitAux, if_neg (by simp [hcur]), if_pos (by simpa using hT)]
  | succ d ih =>
      intro polls current hcur hcid hT hmin
      have hnow : ¬ T ≤ (polls : ℚ) * i := hmin polls (by omega)
      obtain ⟨fin, t, hfin, hrun, hres, hsleep⟩ :=
        ih (polls + 1) (fetch polls current.job_id)
          (hfetch polls current.job_id) (hid polls current.job_id)
          (by rw [show polls + 1 + d = polls + (d + 1) from by omega]; exact hT)
          (fun j hj => hmin j (by omega))
      refine ⟨fin, ⟨t.result, (if cb then [fetch polls current.job_id] else [])
        ++ t.callbackCalls, fetch polls current.job_id :: t.fetched,
        t.sleepCount + 1⟩, hfin, ?_, by simpa using hres, by simpa using hsleep⟩
      rw [waitAux_step fetch i T cb current polls (d + 1) hcur
        (by simpa using hnow), hrun]

/-- C6: a `wait` whose current status stays non-terminal raises the
`APITimeoutError` taxonomy kind as soon as the (sleep-advanced) elapsed
time reaches the timeout: with an always-PROCESSING re-fetch the run
fails after `k` sleeps where `T ≤ k·i < T + i` — approximately the
timeout duration — and the raised message contains both the job's id and
the configured timeout value. -/
theorem C6_poller_timeout :
    ∀ (fetch : Nat → String → JobStatus) (i T : ℚ) (cb : Bool)
      (s : JobStatus),
      s.hasResource = true → s.is_complete = false →
      (∀ n id, (fetch n id).is_complete = false) →
      (∀ n id, (fetch n id).job_id = s.job_id) →
      0 < i → 0 < T →
      ∃ (k : Nat) (t : WaitTrace) (m : String),
        wait_for_completion fetch i T cb s (k + 1) = some t ∧
        t.result = .error (.apiTimeout m) ∧
        t.sleepCount = k ∧
        T ≤ (k : ℚ) * i ∧ (k : ℚ) * i < T + i ∧
        (∃ x y, m = x ++ s.job_id ++ y) ∧
        (∃ x y, m = x ++ toString T ++ y) := by
  intro fetch i T cb s hres hcur hfetch hid hi hT
  have hex : ∃ n : Nat, T ≤ (n : ℚ) * i := by
    obtain ⟨n, hn⟩ := exists_nat_gt (T / i)
    exact ⟨n, le_of_lt ((div_lt_iff₀ hi).mp hn)⟩
  set k := Nat.find hex with hkdef
  have hk : T ≤ (k : ℚ) * i := Nat.find_spec hex
  have hmin : ∀ j : Nat, j < k → ¬ T ≤ (j : ℚ) * i :=
    fun j hj => Nat.find_min hex hj
  have hk1 : 1 ≤ k := by
    rcases Nat.eq_zero_or_pos k with h | h
    · exfalso
      have := hk
      rw [h] at this
      push_cast at this
      simp at this
      exact absurd this (not_le.mpr hT)
    · exact h
  have hupper : (k : ℚ) * i < T + i := by
    have hprev : ¬ T ≤ ((k - 1 : Nat) : ℚ) * i := hmin (k - 1) (by omega)
    have hcast : ((k - 1 : Nat) : ℚ) = (k : ℚ) - 1 := by
      push_cast [hk1]
      ring
    rw [hcast] at hprev
    have := not_le.mp hprev
    nlinarith
  obtain ⟨fin, t, hfin, hrun, hresng, hsleep⟩ :=
    waitAux_times_out fetch i T cb s.job_id hfetch hid k 0 s hcur rfl
      (by simpa using hk) (by simpa using hmin)
  obtain ⟨hc1, hc2⟩ := timeout_message_contains fin T
  refine ⟨k, t, timeout_message fin T, ?_, hresng, hsleep, hk, hupper,
    by rw [← hfin]; exact hc1, hc2⟩
  rw [wait_for_completion, if_pos hres]
  exact hrun

/-- C6 witness: with an always-PROCESSING fetch, `i = 1`, `T = 2`, the
run times out after 2 sleeps with the id-bearing message. -/
theorem C6_witness :
    ∃ (k : Nat) (t : WaitTrace) (m : String),
      wait_for_completion (fun _ _ => convProcessing) 1 2 true convEnqueued
        (k + 1) = some t ∧
      t.result = .error (.apiTimeout m) ∧
      t.sleepCount = k ∧
      (2 : ℚ) ≤ (k : ℚ) * 1 ∧ (k : ℚ) * 1 < 2 + 1 ∧
      (∃ x y, m = x ++ convEnqueued.job_id ++ y) ∧
      (∃ x y, m = x ++ toString (2 : ℚ) ++ y) :=
  C6_poller_timeout (fun _ _ => convProcessing) 1 2 true convEnqueued rfl rfl
    (fun _ _ => rfl) (fun _ _ => rfl) (by norm_num) (by norm_num)

/-- Helper: a success response ends the loop at once. -/
theorem requestAux_success_now (net : Nat → AttemptResult)
    (config : RetryConfig) (draw : Nat → ℚ) (a fuel : Nat)
    (last : Option APIConnectionErrorData) (r : Response)
    (hna : net a = .response r) (hs : r.is_success = true) :
    requestAux net config draw a (fuel + 1) last = ⟨.ok r, 1, []⟩ := by
  simp [requestAux, hna, hs]

/-- Helper: a retryable non-success response sleeps and recurses. -/
theorem requestAux_step_response (net : Nat → AttemptResult)
    (config : RetryConfig) (draw : Nat → ℚ) (a fuel : Nat)
    (last : Option APIConnectionErrorData) (r2 : Response)
    (hna : net a = .response r2) (hns : r2.is_success = false)
    (hsr : should_retry a config none (some r2.status_code) = true) :
    requestAux net config draw a (fuel + 1) last =
      { result := (requestAux net config draw (a + 1) fuel last).result,
        attempts := (requestAux net config draw (a + 1) fuel last).attempts + 1,
        sleeps := calculate_delay a config (draw a) (get_retry_after r2)
          :: (requestAux net config draw (a + 1) fuel last).sleeps } := by
  simp [requestAux, hna, hns, hsr]

/-- Helper: a retryable timeout exception sleeps and recurses, updating
`last_exception`. -/
theorem requestAux_step_timeout (net : Nat → AttemptResult)
    (config : RetryConfig) (draw : Nat → ℚ) (a fuel : Nat)
    (last : Option APIConnectionErrorData) (msg : String)
    (hna : net a = .timeoutExc msg)
    (hsr : should_retry a config
      (some (.connError (mkAPITimeoutError msg))) none = true) :
    requestAux net config draw a (fuel + 1) last =
      { result := (requestAux net config draw (a + 1) fuel
          (some (mkAPITimeoutError msg))).result,
        attempts := (requestAux net config draw (a + 1) fuel
          (some (mkAPITimeoutError msg))).attempts + 1,
        sleeps := calculate_delay a config (draw a) none
          :: (requestAux net config draw (a + 1) fuel
              (some (mkAPITimeoutError msg))).sleeps } := by
  simp [requestAux, hna, hsr]

/-- Helper: a retryable connection exception sleeps and recurses,
updating `last_exception`. -/
theorem requestAux_step_conn (net : Nat → AttemptResult)
    (config : RetryConfig) (draw : Nat → ℚ) (a fuel : Nat)
    (last : Option APIConnectionErrorData) (msg : String)
    (hna : net a = .requestExc msg)
    (hsr : should_retry a config
      (some (.connError (mkAPIConnectionError msg true))) none = true) :
    requestAux net config draw a (fuel + 1) last =
      { result := (requestAux net config draw (a + 1) fuel
          (some (mkAPIConnectionError msg true))).result,
        attempts := (requestAux net config draw (a + 1) fuel
          (some (mkAPIConnectionError msg true))).attempts + 1,
        sleeps := calculate_delay a config (draw a) none
          :: (requestAux net config draw (a + 1) fuel
              (some (mkAPIConnectionError msg true))).sleeps } := by
  simp [requestAux, hna, hsr]

/-- Helper: if every attempt before `k` continues the loop and attempt
`k` yields a success response, the loop started at attempt `a ≤ k` with
enough fuel returns that response after exactly `k - a + 1` attempts. -/
theorem requestAux_reaches_success (net : Nat → AttemptResult)
    (config : RetryConfig) (draw : Nat → ℚ) (k : Nat) (r : Response)
    (hnet : net k = .response r) (hs : r.is_success = true) :
    ∀ (fuel a : Nat) (last : Option APIConnectionErrorData),
      a ≤ k → k < a + fuel →
      (∀ j, a ≤ j → j < k → attemptContinues net config j = true) →
      (requestAux net config draw a fuel last).result = .ok r ∧
      (requestAux net config draw a fuel last).attempts = k - a + 1 := by
  intro fuel
  induction fuel with
  | zero => intro a last h1 h2 _; omega
  | succ n ih =>
      intro a last hale hlt hcont
      rcases Nat.eq_or_lt_of_le hale with heq | hlt2
      · subst heq
        rw [requestAux_success_now net config draw a n last r hnet hs]
        exact ⟨rfl, by simp⟩
      · have hca := hcont a (le_refl a) hlt2
        rw [attemptContinues] at hca
        cases hna : net a with
        | response r2 =>
            rw [hna] at hca
            rw [Bool.and_eq_true] at hca
            obtain ⟨hns, hsr⟩ := hca
            have hns' : r2.is_success = false := by
              cases hh : r2.is_success
              · rfl
              · rw [hh] at hns; exact absurd hns (by simp)
            have hrec := ih (a + 1) last (by omega) (by omega)
              (fun j hj1 hj2 => hcont j (by omega) hj2)
            rw [requestAux_step_response net config draw a n last r2 hna hns' hsr]
            refine ⟨hrec.1, ?_⟩
            show (requestAux net config draw (a + 1) n last).attempts + 1 =
              k - a + 1
            have h2 := hrec.2
            omega
        | timeoutExc msg =>
            rw [hna] at hca
            have hrec := ih (a + 1) (some (mkAPITimeoutError msg)) (by omega)
              (by omega) (fun j hj1 hj2 => hcont j (by omega) hj2)
            rw [requestAux_step_timeout net config draw a n last msg hna hca]
            refine ⟨hrec.1, ?_⟩
            show (requestAux net config draw (a + 1) n
              (some (mkAPITimeoutError msg))).attempts + 1 = k - a + 1
            have h2 := hrec.2
            omega
        | requestExc msg =>
            rw [hna] at hca
            have hrec := ih (a + 1) (some (mkAPIConnectionError msg true))
              (by omega) (by omega) (fun j hj1 hj2 => hcont j (by omega) hj2)
            rw [requestAux_step_conn net config draw a n last msg hna hca]
            refine ⟨hrec.1, ?_⟩
            show (requestAux net config draw (a + 1) n
              (some (mkAPIConnectionError msg true))).attempts + 1 = k - a + 1
            have h2 := hrec.2
            omega

/-- C1: if every attempt before `k` ends in a retry and attempt `k`
(within the budget, `k ≤ max_retries`) yields a success response, the
transport returns exactly that response from attempt `k`: no further
attempt is issued, no remaining retry budget is consumed, and no
exception reaches the caller. -/
theorem C1_success_short_circuits :
    ∀ (net : Nat → AttemptResult) (config : RetryConfig) (draw : Nat → ℚ)
      (k : Nat) (r : Response),
      (k : Int) ≤ config.max_retries →
      (∀ j, j < k → attemptContinues net config j = true) →
      net k = .response r → r.is_success = true →
      (request net config draw).result = .ok r ∧
      (request net config draw).attempts = k + 1 := by
  intro net config draw k r hk hcont hnet hs
  have hfuel : k < 0 + (config.max_retries + 1).toNat := by omega
  have h := requestAux_reaches_success net config draw k r hnet hs
    ((config.max_retries + 1).toNat) 0 none (Nat.zero_le k) hfuel
    (fun j _ hj => hcont j hj)
  rw [request]
  exact ⟨h.1, by rw [h.2]; omega⟩

/-- C1 witness: outcomes 500, 500, 200 with `max_retries = 2` — the
caller observes only the 200 response, on the third attempt. -/
theorem C1_witness :
    (request net552 DEFAULT_RETRY_CONFIG (fun _ => 0)).result = .ok resp200
  ∧ (request net552 DEFAULT_RETRY_CONFIG (fun _ => 0)).attempts = 3 :=
  C1_success_short_circuits net552 DEFAULT_RETRY_CONFIG (fun _ => 0) 2 resp200
    (by decide) (by decide) rfl rfl

/-- Helper: the source's dictionary-plus-fallback class selection agrees
with the specification's table on every status code. -/
theorem pickExcClass_eq_spec (code : Int) :
    pickExcClass code = statusKindSpec code := by
  by_cases h1 : code = 400
  · subst h1; rfl
  by_cases h2 : code = 401
  · subst h2; rfl
  by_cases h3 : code = 403
  · subst h3; rfl
  by_cases h4 : code = 404
  · subst h4; rfl
  by_cases h5 : code = 409
  · subst h5; rfl
  by_cases h6 : code = 422
  · subst h6; rfl
  by_cases h7 : code = 429
  · subst h7; rfl
  have e1 : ((400 : Int) == code) = false := beq_eq_false_iff_ne.mpr (Ne.symm h1)
  have e2 : ((401 : Int) == code) = false := beq_eq_false_iff_ne.mpr (Ne.symm h2)
  have e3 : ((403 : Int) == code) = false := beq_eq_false_iff_ne.mpr (Ne.symm h3)
  have e4 : ((404 : Int) == code) = false := beq_eq_false_iff_ne.mpr (Ne.symm h4)
  have e5 : ((409 : Int) == code) = false := beq_eq_false_iff_ne.mpr (Ne.symm h5)
  have e6 : ((422 : Int) == code) = false := beq_eq_false_iff_ne.mpr (Ne.symm h6)
  have e7 : ((429 : Int) == code) = false := beq_eq_false_iff_ne.mpr (Ne.symm h7)
  simp [pickExcClass, statusKindSpec, STATUS_CODE_TO_EXCEPTION, List.find?,
    e1, e2, e3, e4, e5, e6, e7, h1, h2, h3, h4, h5, h6, h7]

/-- Helper: everything `raise_for_status` raises carries the status code
of the response and the kind the specification table assigns to it. -/
theorem raise_for_status_kind (r : Response) (e : APIErrorData)
    (h : raise_for_status r = some e) :
    e.kind = statusKindSpec r.status_code ∧ e.status_code = r.status_code := by
  by_cases hs : r.is_success
  · rw [raise_for_status, if_pos hs] at h
    exact absurd h (by simp)
  · rw [raise_for_status, if_neg hs] at h
    injection h with h
    subst h
    exact ⟨pickExcClass_eq_spec r.status_code, rfl⟩

/-- Helper: every `APIError`-family failure the request loop produces
went through `raise_for_status`, hence follows the mapping. -/
theorem requestAux_api_error_kind (net : Nat → AttemptResult)
    (config : RetryConfig) (draw : Nat → ℚ) :
    ∀ (fuel a : Nat) (last : Option APIConnectionErrorData) (e : APIErrorData),
      (requestAux net config draw a fuel last).result = .error (.api e) →
      e.kind = statusKindSpec e.status_code := by
  intro fuel
  induction fuel with
  | zero =>
      intro a last e h
      cases last <;> simp [requestAux] at h
  | succ n ih =>
      intro a last e h
      cases hna : net a with
      | response r2 =>
          by_cases h1 : r2.is_success
          · rw [requestAux_success_now net config draw a n last r2 hna h1] at h
            exact absurd h (by simp)
          · have h1' : r2.is_success = false := by
              cases hh : r2.is_success
              · rfl
              · exact absurd hh h1
            by_cases h2 : should_retry a config none (some r2.status_code) = true
            · rw [requestAux_step_response net config draw a n last r2 hna h1' h2]
                at h
              exact ih (a + 1) last e h
            · have h2' : should_retry a config none (some r2.status_code) = false :=
                by
                cases hh : should_retry a config none (some r2.status_code)
                · rfl
                · exact absurd hh h2
              cases hrfs : raise_for_status r2 with
              | none =>
                  rw [raise_for_status, if_neg (by simp [h1'])] at hrfs
                  exact absurd hrfs (by simp)
              | some e2 =>
                  have hloop : requestAux net config draw a (n + 1) last =
                      ⟨.error (.api e2), 1, []⟩ := by
                    simp [requestAux, hna, h1', h2', hrfs]
                  rw [hloop] at h
                  have h' : Except.error (SdkError.api e2) =
                      Except.error (SdkError.api e) := h
                  injection h' with h'
                  injection h' with h'
                  subst h'
                  obtain ⟨hk, hc⟩ := raise_for_status_kind r2 e2 hrfs
                  rw [← hc] at hk
                  exact hk
      | timeoutExc msg =>
          by_cases h2 : should_retry a config
            (some (.connError (mkAPITimeoutError msg))) none = true
          · rw [requestAux_step_timeout net config draw a n last msg hna h2] at h
            exact ih (a + 1) (some (mkAPITimeoutError msg)) e h
          · have hloop : requestAux net config draw a (n + 1) last =
                ⟨.error (.conn (mkAPITimeoutError msg)), 1, []⟩ := by
              simp [requestAux, hna, h2]
            rw [hloop] at h
            exact absurd h (by simp)
      | requestExc msg =>
          by_cases h2 : should_retry a config
            (some (.connError (mkAPIConnectionError msg true))) none = true
          · rw [requestAux_step_conn net config draw a n last msg hna h2] at h
            exact ih (a + 1) (some (mkAPIConnectionError msg true)) e h
          · have hloop : requestAux net config draw a (n + 1) last =
                ⟨.error (.conn (mkAPIConnectionError msg true)), 1, []⟩ := by
              simp [requestAux, hna, h2]
            rw [hloop] at h
            exact absurd h (by simp)

/-- C2: `raise_for_status` maps 400→BadRequest, 401→Authentication,
403→PermissionDenied, 404→NotFound, 409→Conflict,
422→UnprocessableEntity, 429→RateLimit, any unmapped ≥500→InternalServer
and any other unmapped code (e.g. 418)→the generic `APIError` class;
every `APIError`-family failure the transport terminates with follows
that table; and a non-retryable status such as 400 raises on the very
first attempt, with no retry and no delay, for every `max_retries ≥ 0`. -/
theorem C2_error_mapping :
    (∀ (r : Response) (e : APIErrorData), raise_for_status r = some e →
        e.kind = statusKindSpec r.status_code ∧ e.status_code = r.status_code)
  ∧ (∀ (net : Nat → AttemptResult) (config : RetryConfig) (draw : Nat → ℚ)
        (e : APIErrorData),
        (request net config draw).result = .error (.api e) →
        e.kind = statusKindSpec e.status_code)
  ∧ (∀ (net : Nat → AttemptResult) (config : RetryConfig) (draw : Nat → ℚ)
        (r : Response),
        0 ≤ config.max_retries →
        net 0 = .response r →
        r.is_success = false →
        config.retryable_status_codes.contains r.status_code = false →
        ∃ e, raise_for_status r = some e ∧
          request net config draw = ⟨.error (.api e), 1, []⟩) := by
  refine ⟨raise_for_status_kind, ?_, ?_⟩
  · intro net config draw e h
    rw [request] at h
    exact requestAux_api_error_kind net config draw _ 0 none e h
  · intro net config draw r hmax hnet hns hcode
    have hsr : should_retry 0 config none (some r.status_code) = false := by
      by_cases hge : ((0 : Nat) : Int) ≥ config.max_retries
      · rw [should_retry, if_pos hge]
        intro e h
        exact Option.noConfusion h
      · rw [should_retry, if_neg hge]
        · exact hcode
        · intro e h
          exact Option.noConfusion h
    obtain ⟨m, hm⟩ : ∃ m, (config.max_retries + 1).toNat = m + 1 := by
      refine ⟨(config.max_retries + 1).toNat - 1, ?_⟩
      omega
    cases hrfs : raise_for_status r with
    | none =>
        rw [raise_for_status, if_neg (by simp [hns])] at hrfs
        exact absurd hrfs (by simp)
    | some e =>
        refine ⟨e, rfl, ?_⟩
        rw [request, hm]
        simp [requestAux, hnet, hns, hsr, hrfs]

/-- C2 witness: a 400 response raises BadRequest on the very first
attempt with the default budget, and an unmapped 418 yields the generic
`APIError` class, not a subclass. -/
theorem C2_witness :
    (∃ e, raise_for_status resp400 = some e ∧
      request (fun _ => .response resp400) DEFAULT_RETRY_CONFIG (fun _ => 0) =
        ⟨.error (.api e), 1, []⟩ ∧
      e.kind = .badRequest)
  ∧ (∃ e, raise_for_status resp418 = some e ∧ e.kind = .apiError) := by
  constructor
  · obtain ⟨e, he, hreq⟩ := C2_error_mapping.2.2 (fun _ => .response resp400)
      DEFAULT_RETRY_CONFIG (fun _ => 0) resp400 (by decide) rfl rfl (by decide)
    refine ⟨e, he, hreq, ?_⟩
    have hk := (C2_error_mapping.1 resp400 e he).1
    rw [hk]
    rfl
  · refine ⟨_, rfl, ?_⟩
    have hk := (C2_error_mapping.1 resp418 _ rfl).1
    rw [hk]
    rfl

end Docutray
